import Mathlib

/-!
Verification development for the iracing-mcp-server repository.

Part 1 embeds the data-access layer `iracing_mcp_server/iracing_data.py`
(`IRacingDataCollector`) shallowly: Python values become the inductive
`PyVal`, Python exceptions become `PyExc`, each fallible step computes in
`Except PyExc`, and the outer try/except of each collector method maps any
error to `none`.  Python floats are modelled as rationals.

Part 2 models the telemetry event broadcaster, which is exercised by
`tests/test_event_broadcaster.py` but whose implementation module is not
part of the source tree; it is modelled from the specification.
-/

/-- Python exceptions that the embedded code can raise or catch. -/
inductive PyExc where
  | keyError
  | typeError
  | valueError
  | attributeError
  | indexError
deriving Repr, DecidableEq

/-- Python runtime values as used by the collector: None, int, float
(modelled as a rational), str, list, dict with string keys. -/
inductive PyVal where
  | vnone
  | vint (i : Int)
  | vfloat (q : Rat)
  | vstr (s : String)
  | vlist (l : List PyVal)
  | vdict (d : List (String × PyVal))

/-- Python truthiness of a value. -/
def pyTruthy : PyVal → Bool
  | .vnone => false
  | .vint i => decide (i ≠ 0)
  | .vfloat q => decide (q ≠ 0)
  | .vstr s => !s.isEmpty
  | .vlist l => !l.isEmpty
  | .vdict d => !d.isEmpty

/-- Python `a or b`: `a` if truthy, else `b`. -/
def pyOr (a b : PyVal) : PyVal := if pyTruthy a then a else b

/-- Python `v is None`. -/
def isNone : PyVal → Bool
  | .vnone => true
  | _ => false

/-- Python `isinstance(v, (int, float))`. -/
def isNumber : PyVal → Bool
  | .vint _ => true
  | .vfloat _ => true
  | _ => false

/-- Python `v < 0`: defined for numbers, raises TypeError otherwise. -/
def pyLtZero : PyVal → Except PyExc Bool
  | .vint i => .ok (decide (i < 0))
  | .vfloat q => .ok (decide (q < 0))
  | _ => .error .typeError

/-- Python `v == n` for a non-negative machine index `n` (int/float compare
numerically, other types are never equal to a number). -/
def pyEqNat (v : PyVal) (n : Nat) : Bool :=
  match v with
  | .vint i => decide (i = (n : Int))
  | .vfloat q => decide (q = (n : Rat))
  | _ => false

/-- Python `str(v)`, only used to build fallback display names. -/
def pyStr : PyVal → String
  | .vnone => "None"
  | .vint i => toString i
  | .vfloat q => toString q
  | .vstr s => s
  | .vlist _ => "[...]"
  | .vdict _ => "\x7b...\x7d"

/-- Parse the digits of a non-empty decimal string. -/
def digitsToNat? (cs : List Char) : Option Nat :=
  if cs.isEmpty then none
  else cs.foldl (fun acc c => acc.bind fun n =>
    if c.isDigit then some (n * 10 + (c.toNat - 48)) else none) (some 0)

/-- Python `float(s)` on a string: optional sign, digits, optional
fractional part (scientific notation is out of scope for the strings the
collector actually parses). -/
def parseFloat? (s : String) : Option Rat :=
  let cs := s.trim.toList
  let sign : Rat := match cs.head? with
    | some c => if c = '-' then -1 else 1
    | none => 1
  let cs := match cs with
    | c :: rest => if c = '-' ∨ c = '+' then rest else cs
    | [] => cs
  let intPart := cs.takeWhile (·.isDigit)
  let rest := cs.dropWhile (·.isDigit)
  match rest with
  | [] => (digitsToNat? intPart).map (fun n => sign * (n : Rat))
  | c :: frac =>
    if c = '.' ∧ frac.all (·.isDigit) ∧ (!intPart.isEmpty ∨ !frac.isEmpty) then
      let ip := (digitsToNat? intPart).getD 0
      let fp := (digitsToNat? frac).getD 0
      some (sign * ((ip : Rat) + (fp : Rat) / ((10 : Rat) ^ frac.length)))
    else none

/-- Python `float(v)`: numbers convert, strings are parsed (ValueError on
failure), anything else raises TypeError. -/
def pyFloat : PyVal → Except PyExc Rat
  | .vint i => .ok (i : Rat)
  | .vfloat q => .ok q
  | .vstr s =>
    match parseFloat? s with
    | some q => .ok q
    | none => .error .valueError
  | _ => .error .typeError

/-- Round-half-to-even on rationals (the rounding used by Python `round`). -/
def rhe (q : Rat) : Int :=
  let f := ⌊q⌋
  let fr := q - (f : Rat)
  if fr < 1 / 2 then f
  else if 1 / 2 < fr then f + 1
  else if Even f then f else f + 1

/-- Python `round(q, n)` modelled on rationals. -/
def pyRound (q : Rat) (n : Nat) : Rat :=
  (rhe (q * (10 : Rat) ^ n) : Rat) / (10 : Rat) ^ n

/-- Python `d.get(key, dflt)`; calling `.get` on a non-dict raises
AttributeError. -/
def dictGet (v : PyVal) (key : String) (dflt : PyVal) : Except PyExc PyVal :=
  match v with
  | .vdict d => .ok (((d.find? (fun kv => kv.1 == key)).map (·.2)).getD dflt)
  | _ => .error .attributeError

/-- Python iteration (`enumerate`): lists yield their elements, strings
their characters, dicts their keys; other values raise TypeError. -/
def asIter : PyVal → Except PyExc (List PyVal)
  | .vlist l => .ok l
  | .vstr s => .ok (s.toList.map (fun c => .vstr (String.singleton c)))
  | .vdict d => .ok (d.map (fun kv => .vstr kv.1))
  | _ => .error .typeError

/-- Python `l[i]` with int index: non-negative in range, or negative
(counted from the end); out of range raises IndexError. -/
def pyIndex (xs : List PyVal) (i : Int) : Except PyExc PyVal :=
  if h : 0 ≤ i ∧ i.toNat < xs.length then .ok (xs.get ⟨i.toNat, h.2⟩)
  else if h2 : -(xs.length : Int) ≤ i ∧ i < 0 then
    .ok (xs.get ⟨xs.length - i.natAbs, by omega⟩)
  else .error .indexError

/-- State of the `IRacingDataCollector` and its underlying `irsdk.IRSDK`
handle: the `_connected` flag, the SDK's `is_initialized`/`is_connected`
properties, the outcome of `freeze_var_buffer_latest`, and the shared-memory
reads `self.ir[name]` (which may raise). -/
structure IRState where
  connectedFlag : Bool
  irInitialized : Bool
  irConnected : Bool
  freeze : Except PyExc Unit
  read : String → Except PyExc PyVal

/-- `IRacingDataCollector.is_connected`: false when `_connected` is unset,
otherwise requires the SDK to be initialized and still connected. -/
def is_connected (st : IRState) : Bool :=
  st.connectedFlag && (st.irInitialized && st.irConnected)

/-- `IRacingDataCollector._get_var`: reads `self.ir[name]`, turning a
KeyError into None; other exceptions propagate. -/
def _get_var (st : IRState) (name : String) : Except PyExc PyVal :=
  match st.read name with
  | .error .keyError => .ok .vnone
  | .error e => .error e
  | .ok v => .ok v

/-- `IRacingDataCollector._get_driver_metadata`: looks up a field of the
driver record at `car_idx` in `DriverInfo["Drivers"]`; every exception is
caught and yields None. -/
def _get_driver_metadata (st : IRState) (car_idx : PyVal) (field : String) : PyVal :=
  match st.read "DriverInfo" with
  | .error _ => .vnone
  | .ok di =>
    match dictGet (pyOr di (.vdict [])) "Drivers" (.vlist []) with
    | .error _ => .vnone
    | .ok drivers =>
      match car_idx, drivers with
      | .vint i, .vlist l =>
        if h : 0 ≤ i ∧ i.toNat < l.length then
          match dictGet (l.get ⟨i.toNat, h.2⟩) field .vnone with
          | .error _ => .vnone
          | .ok v => v
        else .vnone
      | _, _ => .vnone

/-- `IRacingDataCollector._get_track_length_meters`: reads the track length
string from `WeekendInfo` (falling back to `SessionInfo["WeekendInfo"]`),
parses its leading number, and converts by unit. -/
def _get_track_length_meters (st : IRState) : Except PyExc (Option Rat) :=
  let w1 := match st.read "WeekendInfo" with
    | .ok v => v
    | .error _ => .vnone
  let w := if pyTruthy w1 then w1 else
    match st.read "SessionInfo" with
    | .error _ => .vdict []
    | .ok si =>
      match dictGet (pyOr si (.vdict [])) "WeekendInfo" (.vdict []) with
      | .error _ => .vdict []
      | .ok w2 => w2
  match dictGet (pyOr w (.vdict [])) "TrackLength" .vnone with
  | .error e => .error e
  | .ok length_str =>
    if pyTruthy length_str then
      match length_str with
      | .vstr s =>
        let parts := ((s.replace "," "").split (·.isWhitespace)).filter
          (fun t => !t.isEmpty)
        match parts with
        | [] => .ok none
        | p0 :: restParts =>
          match parseFloat? p0 with
          | none => .ok none
          | some value =>
            let unit := match restParts with
              | [] => "m"
              | u :: _ => u.toLower
            if unit.startsWith "km" then .ok (some (value * 1000))
            else if unit.startsWith "mi" then .ok (some (value * (160934 / 100 : Rat)))
            else if unit.startsWith "m" then .ok (some value)
            else if unit.startsWith "ft" then .ok (some (value * (3048 / 10000 : Rat)))
            else .ok none
      | _ => .error .attributeError
    else .ok none

/-- Guarded element access used for the per-car enrichment fields:
`lst[idx] if isinstance(lst, (list, tuple)) and 0 <= idx < len(lst) else None`. -/
def listAtOrNone (v : PyVal) (idx : Nat) : PyVal :=
  match v with
  | .vlist l => if h : idx < l.length then l.get ⟨idx, h⟩ else .vnone
  | _ => .vnone

/-- Guarded element access used for the player summary:
`lst[pidx] if isinstance(lst, (list, tuple)) and isinstance(pidx, int) and 0 <= pidx < len(lst) else None`. -/
def playerAt (v : PyVal) (pidx : PyVal) : PyVal :=
  match v, pidx with
  | .vlist l, .vint i =>
    if h : 0 ≤ i ∧ i.toNat < l.length then l.get ⟨i.toNat, h.2⟩ else .vnone
  | _, _ => .vnone

/-- Position lookup of `get_position_info`:
`lst[pidx] if isinstance(lst, list) and isinstance(pidx, int) and pidx < len(lst) else 0`.
The guard has no lower bound, so a very negative index raises IndexError. -/
def positionAt (v : PyVal) (pidx : PyVal) : Except PyExc PyVal :=
  match v, pidx with
  | .vlist l, .vint i =>
    if i < (l.length : Int) then pyIndex l i else .ok (.vint 0)
  | _, _ => .ok (.vint 0)

/-- Result record of `get_position_info`. -/
structure PositionInfo where
  position : PyVal
  class_position : PyVal
  lap_completed : PyVal
  laps_completed : PyVal
  lap_best_time : PyVal
  lap_last_time : PyVal

/-- The `try` block of `IRacingDataCollector.get_position_info`. -/
def get_position_info_body (st : IRState) : Except PyExc (Option PositionInfo) :=
  match st.freeze with
  | .error e => .error e
  | .ok _ =>
  match _get_var st "PlayerCarIdx" with
  | .error e => .error e
  | .ok player_idx =>
  match _get_var st "CarIdxPosition" with
  | .error e => .error e
  | .ok v1 =>
  let car_idx_position := pyOr v1 (.vlist [])
  match _get_var st "CarIdxClassPosition" with
  | .error e => .error e
  | .ok v2 =>
  let car_idx_class_position := pyOr v2 (.vlist [])
  match positionAt car_idx_position player_idx with
  | .error e => .error e
  | .ok position =>
  match positionAt car_idx_class_position player_idx with
  | .error e => .error e
  | .ok class_position =>
  match _get_var st "LapCompleted" with
  | .error e => .error e
  | .ok lap_completed =>
  match _get_var st "LapsComplete" with
  | .error e => .error e
  | .ok laps_completed =>
  match _get_var st "LapBestLapTime" with
  | .error e => .error e
  | .ok lap_best_time =>
  match _get_var st "LapLastLapTime" with
  | .error e => .error e
  | .ok lap_last_time =>
  .ok (some { position, class_position, lap_completed, laps_completed,
              lap_best_time, lap_last_time })

/-- `IRacingDataCollector.get_position_info`: None when not connected, and
the surrounding try/except maps any exception to None. -/
def get_position_info (st : IRState) : Option PositionInfo :=
  if is_connected st then
    match get_position_info_body st with
    | .ok r => r
    | .error _ => none
  else none

/-- One entry of the `get_surroundings` car lists. -/
structure SurroundCar where
  car_idx : Nat
  name : PyVal
  car_number : PyVal
  position : PyVal
  class_position : PyVal
  speed : PyVal
  track_surface : PyVal
  relative_lap_dist_pct : Rat
  gap_meters : Option Rat

/-- The player summary of `get_surroundings`. -/
structure PlayerSummary where
  car_idx : PyVal
  name : PyVal
  car_number : PyVal
  position : PyVal
  class_position : PyVal

/-- Result record of `get_surroundings`. -/
structure Surroundings where
  player : PlayerSummary
  cars_ahead : List SurroundCar
  cars_behind : List SurroundCar
  track_length_m : Option Rat

/-- Start/finish-line normalization of a raw lap-distance difference:
`if relative > 0.5: relative -= 1.0 elif relative < -0.5: relative += 1.0`. -/
def normalizeRel (r : Rat) : Rat :=
  if 1 / 2 < r then r - 1 else if r < -(1 / 2) then r + 1 else r

/-- One iteration of the `for idx, dist in enumerate(car_dists)` loop of
`get_surroundings`: skips (None) the player car, missing, negative, and
non-numeric distances, and cars exactly level after normalization;
otherwise builds the enriched entry for this car. -/
def entryStep (st : IRState) (player_idx player_dist car_speeds
    car_positions car_class_positions car_surfaces : PyVal)
    (track_length_m : Option Rat) (idx : Nat) (d : PyVal) :
    Except PyExc (Option SurroundCar) :=
  if pyEqNat player_idx idx then .ok none
  else if isNone d then .ok none
  else
    match pyLtZero d with
    | .error e => .error e
    | .ok true => .ok none
    | .ok false =>
      if !isNumber d then .ok none
      else match pyFloat d with
      | .error e => .error e
      | .ok fd =>
        match pyFloat player_dist with
        | .error e => .error e
        | .ok fp =>
          let relative := normalizeRel (fd - fp)
          if relative = 0 then .ok none
          else
            let relative_pct := relative * 100
            let gap_meters : Option Rat :=
              track_length_m.map (fun L => L * relative)
            .ok (some {
              car_idx := idx
              name := pyOr (_get_driver_metadata st (.vint idx) "UserName")
                (pyOr (_get_driver_metadata st (.vint idx) "CarNumber")
                  (.vstr ("Car " ++ toString idx)))
              car_number := pyOr (_get_driver_metadata st (.vint idx) "CarNumber")
                (.vstr (toString idx))
              position := listAtOrNone car_positions idx
              class_position := listAtOrNone car_class_positions idx
              speed := listAtOrNone car_speeds idx
              track_surface := listAtOrNone car_surfaces idx
              relative_lap_dist_pct := pyRound relative_pct 4
              gap_meters := gap_meters.map (fun g => pyRound g 2) })

/-- The whole `enumerate(car_dists)` loop of `get_surroundings`: one
`entryStep` per element, collecting the produced entries in order; the
first raised exception aborts the loop. -/
def collectEntries (st : IRState) (player_idx player_dist car_speeds
    car_positions car_class_positions car_surfaces : PyVal)
    (track_length_m : Option Rat) :
    List PyVal → Nat → Except PyExc (List SurroundCar)
  | [], _ => .ok []
  | d :: rest, idx =>
    match entryStep st player_idx player_dist car_speeds car_positions
        car_class_positions car_surfaces track_length_m idx d with
    | .error e => .error e
    | .ok none => collectEntries st player_idx player_dist car_speeds
        car_positions car_class_positions car_surfaces track_length_m rest (idx + 1)
    | .ok (some entry) =>
      match collectEntries st player_idx player_dist car_speeds
          car_positions car_class_positions car_surfaces track_length_m rest
          (idx + 1) with
      | .error e => .error e
      | .ok es => .ok (entry :: es)

/-- Sort order of `cars_ahead`: ascending relative lap distance. -/
def aheadLe (a b : SurroundCar) : Prop :=
  a.relative_lap_dist_pct ≤ b.relative_lap_dist_pct

/-- Sort order of `cars_behind`: ascending absolute relative lap distance. -/
def behindLe (a b : SurroundCar) : Prop :=
  |a.relative_lap_dist_pct| ≤ |b.relative_lap_dist_pct|

instance : DecidableRel aheadLe := fun a b =>
  inferInstanceAs (Decidable (a.relative_lap_dist_pct ≤ b.relative_lap_dist_pct))

instance : DecidableRel behindLe := fun a b =>
  inferInstanceAs (Decidable (|a.relative_lap_dist_pct| ≤ |b.relative_lap_dist_pct|))

instance : IsTotal SurroundCar aheadLe := ⟨fun _ _ => le_total _ _⟩

instance : IsTrans SurroundCar aheadLe := ⟨fun _ _ _ h1 h2 => le_trans h1 h2⟩

instance : IsTotal SurroundCar behindLe := ⟨fun _ _ => le_total _ _⟩

instance : IsTrans SurroundCar behindLe := ⟨fun _ _ _ h1 h2 => le_trans h1 h2⟩

/-- Effective count of `get_surroundings`: `max(1, min(10, count or 3))`,
where a missing (None) or zero `count` is falsy and defaults to 3. -/
def effectiveCount (count : Option Int) : Int :=
  max 1 (min 10 (match count with
    | none => 3
    | some i => if i = 0 then 3 else i))

/-- The value list `enumerate` iterates over in `get_surroundings`:
`self._get_var("CarIdxLapDistPct") or []` as a Python iterable. -/
def distsListOf (st : IRState) : Except PyExc (List PyVal) :=
  match _get_var st "CarIdxLapDistPct" with
  | .error e => .error e
  | .ok v => asIter (pyOr v (.vlist []))

/-- The `try` block of `IRacingDataCollector.get_surroundings` (after the
count has been clamped, which happens outside the `try`). -/
def get_surroundings_body (st : IRState) (count : Int) :
    Except PyExc (Option Surroundings) :=
  match st.freeze with
  | .error e => .error e
  | .ok _ =>
  match _get_var st "PlayerCarIdx" with
  | .error e => .error e
  | .ok player_idx =>
  match _get_var st "LapDistPct" with
  | .error e => .error e
  | .ok player_dist =>
  if isNone player_idx || isNone player_dist then .ok none
  else
  match _get_var st "CarIdxLapDistPct" with
  | .error e => .error e
  | .ok vdists =>
  let car_dists := pyOr vdists (.vlist [])
  match _get_var st "CarIdxSpeed" with
  | .error e => .error e
  | .ok vspeeds =>
  let car_speeds := pyOr vspeeds (.vlist [])
  match _get_var st "CarIdxPosition" with
  | .error e => .error e
  | .ok vpos =>
  let car_positions := pyOr vpos (.vlist [])
  match _get_var st "CarIdxClassPosition" with
  | .error e => .error e
  | .ok vclass =>
  let car_class_positions := pyOr vclass (.vlist [])
  match _get_var st "CarIdxTrackSurface" with
  | .error e => .error e
  | .ok vsurf =>
  let car_surfaces := pyOr vsurf (.vlist [])
  match _get_track_length_meters st with
  | .error e => .error e
  | .ok track_length_m =>
  let player_name := pyOr (_get_driver_metadata st player_idx "UserName")
    (pyOr (_get_driver_metadata st player_idx "CarNumber")
      (.vstr ("Car " ++ pyStr player_idx)))
  let player_number := pyOr (_get_driver_metadata st player_idx "CarNumber")
    (.vstr (pyStr player_idx))
  let _player_team := _get_driver_metadata st player_idx "TeamName"
  match asIter car_dists with
  | .error e => .error e
  | .ok dists =>
  match collectEntries st player_idx player_dist car_speeds car_positions
      car_class_positions car_surfaces track_length_m dists 0 with
  | .error e => .error e
  | .ok entries =>
  let ahead := ((entries.filter
    (fun car => decide (0 < car.relative_lap_dist_pct))).insertionSort
      aheadLe).take count.toNat
  let behind := ((entries.filter
    (fun car => decide (car.relative_lap_dist_pct < 0))).insertionSort
      behindLe).take count.toNat
  let player_summary : PlayerSummary := {
    car_idx := player_idx
    name := player_name
    car_number := player_number
    position := playerAt car_positions player_idx
    class_position := playerAt car_class_positions player_idx }
  .ok (some { player := player_summary, cars_ahead := ahead,
              cars_behind := behind, track_length_m := track_length_m })

/-- `IRacingDataCollector.get_surroundings`: None when not connected,
clamps the count, and the surrounding try/except maps any exception to
None. -/
def get_surroundings (st : IRState) (count : Option Int) : Option Surroundings :=
  if is_connected st then
    match get_surroundings_body st (effectiveCount count) with
    | .ok r => r
    | .error _ => none
  else none

/-- Modelled from the spec: `CarRef` of the broadcaster data model (the
`IRacingEventBroadcaster` implementation is not in the source tree; only
its test is). -/
structure CarRef where
  name : String
  carNumber : String
  gapMeters : Option Rat
deriving DecidableEq

/-- Modelled from the spec: `PositionSnapshot` produced once per poll tick. -/
structure PositionSnapshot where
  position : Nat
  classPosition : Nat
deriving DecidableEq

/-- Modelled from the spec: `SurroundingsView` used for event enrichment. -/
structure SurroundingsView where
  carsAhead : List CarRef
  carsBehind : List CarRef
deriving DecidableEq

/-- Modelled from the spec: `TelemetryEvent`, currently the single variant
`PlayerPass`. -/
inductive TelemetryEvent where
  | playerPass (previousPosition currentPosition : Nat) (passedCar : Option CarRef)
deriving DecidableEq

/-- Modelled from the spec: a subscriber handle; `deliver` may fail, which
the broadcaster must catch. -/
structure Subscriber where
  id : Nat
  deliver : TelemetryEvent → Except String Unit

/-- Modelled from the spec: what one poll tick observes from the
DataSource: connectivity, the position snapshot (absent when unavailable),
and the surroundings query by lookback count. -/
structure TickInput where
  connected : Bool
  positionInfo : Option PositionSnapshot
  surroundings : Nat → Option SurroundingsView

/-- Modelled from the spec: `BroadcasterState` plus the subscriber registry
and lifecycle bookkeeping (`loopExited` records that the poll loop has
fully exited; `teardownCount` counts teardown side effects). -/
structure Broadcaster where
  previousPosition : Option Nat
  running : Bool
  loopExited : Bool
  teardownCount : Nat
  subscribers : List Subscriber

/-- Modelled from the spec: the initial broadcaster state; `previousPosition`
starts unset and no loop is running. -/
def initBroadcaster : Broadcaster :=
  { previousPosition := none, running := false, loopExited := true,
    teardownCount := 0, subscribers := [] }

/-- Modelled from the spec: `passedCar` derivation — the first entry of
`carsBehind` of the queried surroundings, if present. -/
def passedCarFrom (sv : Option SurroundingsView) : Option CarRef :=
  sv.bind (fun s => s.carsBehind.head?)

/-- Modelled from the spec: `ChangeDetector.detect(previous, current)` —
nothing without a baseline, a `PlayerPass` exactly when the position
improved (numerically decreased), enriched from the surroundings query. -/
def detect (previous : Option Nat) (current : Nat)
    (surr : Option SurroundingsView) : Option TelemetryEvent :=
  match previous with
  | none => none
  | some p =>
    if current < p then some (.playerPass p current (passedCarFrom surr))
    else none

/-- Modelled from the spec: fan-out delivery — every registered subscriber
is attempted and its outcome (success or caught failure) recorded; no
outcome removes a subscriber or aborts the others. -/
def broadcastEvent (subs : List Subscriber) (ev : TelemetryEvent) :
    List (Nat × Except String Unit) :=
  subs.map (fun s => (s.id, s.deliver ev))

/-- Modelled from the spec: `registerSession` appends a subscriber to the
registry. -/
def register_session (b : Broadcaster) (s : Subscriber) : Broadcaster :=
  { b with subscribers := b.subscribers ++ [s] }

/-- Modelled from the spec: `start()` begins the polling loop when not
already running; a no-op otherwise. -/
def start (b : Broadcaster) : Broadcaster :=
  if b.running then b else { b with running := true, loopExited := false }

/-- Modelled from the spec: `stop()` signals the loop to exit, awaits its
termination, and marks `running = false`; a no-op when not running. -/
def stop (b : Broadcaster) : Broadcaster :=
  if b.running then
    { b with running := false, loopExited := true,
             teardownCount := b.teardownCount + 1 }
  else b

/-- Modelled from the spec: one body of the polling loop — skip the tick on
disconnect or missing snapshot (preserving the baseline), otherwise run the
detector, fan out any event, and unconditionally update
`previousPosition`. Returns the new state and the delivery outcomes. -/
def pollTick (b : Broadcaster) (inp : TickInput) :
    Broadcaster × List (Nat × Except String Unit) :=
  if inp.connected = false then (b, [])
  else match inp.positionInfo with
  | none => (b, [])
  | some cur =>
    let ev := detect b.previousPosition cur.position (inp.surroundings 1)
    let deliveries := match ev with
      | none => []
      | some e => broadcastEvent b.subscribers e
    ({ b with previousPosition := some cur.position }, deliveries)

/-- Modelled from the spec: running the poll loop over a sequence of tick
inputs, collecting each tick's delivery outcomes. -/
def runTicks : Broadcaster → List TickInput →
    Broadcaster × List (List (Nat × Except String Unit))
  | b, [] => (b, [])
  | b, t :: ts =>
    let r1 := pollTick b t
    let r2 := runTicks r1.1 ts
    (r2.1, r1.2 :: r2.2)

/-- Decidable check used as a domain hypothesis: whenever the value
converts to a number, that number lies in the unit interval (a lap-distance
percentage between 0 and 1). -/
def distInUnit (d : PyVal) : Bool :=
  match pyFloat d with
  | .ok q => decide ((0 : Rat) ≤ q ∧ q ≤ 1)
  | .error _ => true

/-- A collector that never connected. -/
def exDisc : IRState :=
  { connectedFlag := false, irInitialized := false, irConnected := false,
    freeze := .ok (), read := fun _ => .error .keyError }

/-- A connected collector whose variable buffer freeze raises. -/
def exFail : IRState :=
  { connectedFlag := true, irInitialized := true, irConnected := true,
    freeze := .error .typeError, read := fun _ => .error .typeError }

/-- Shared-memory contents of a small healthy session: the player is car 0
at half distance; cars 1, 2, 3 are at 0.6, 0.4 and 0.55 of the lap. -/
def exGoodRead (name : String) : Except PyExc PyVal :=
  if name = "PlayerCarIdx" then .ok (.vint 0)
  else if name = "LapDistPct" then .ok (.vfloat (1 / 2))
  else if name = "CarIdxLapDistPct" then
    .ok (.vlist [.vfloat (1 / 2), .vfloat (3 / 5), .vfloat (2 / 5), .vfloat (11 / 20)])
  else .error .keyError

/-- A connected collector over `exGoodRead`. -/
def exGood : IRState :=
  { connectedFlag := true, irInitialized := true, irConnected := true,
    freeze := .ok (), read := exGoodRead }

/-- Expected surroundings entry shape for the sample sessions: only the
fallback name/number are available and no enrichment lists exist. -/
def mkCar (i : Nat) (r : Rat) : SurroundCar :=
  { car_idx := i, name := .vstr ("Car " ++ toString i),
    car_number := .vstr (toString i), position := .vnone,
    class_position := .vnone, speed := .vnone, track_surface := .vnone,
    relative_lap_dist_pct := r, gap_meters := none }

/-- Expected result of `get_surroundings exGood (some 3)`. -/
def exRes : Surroundings :=
  { player := { car_idx := .vint 0, name := .vstr "Car 0",
                car_number := .vstr "0", position := .vnone,
                class_position := .vnone },
    cars_ahead := [mkCar 3 5, mkCar 1 10],
    cars_behind := [mkCar 2 (-10)],
    track_length_m := none }

/-- Shared-memory contents with an out-of-range opponent lap distance of
1.6 laps: the single normalization step leaves a relative distance of 0.6
laps, reported as +60 percent. -/
def cexRead (name : String) : Except PyExc PyVal :=
  if name = "PlayerCarIdx" then .ok (.vint 0)
  else if name = "LapDistPct" then .ok (.vfloat 0)
  else if name = "CarIdxLapDistPct" then
    .ok (.vlist [.vfloat 0, .vfloat (8 / 5)])
  else .error .keyError

/-- A connected collector over `cexRead`. -/
def cexSt : IRState :=
  { connectedFlag := true, irInitialized := true, irConnected := true,
    freeze := .ok (), read := cexRead }

/-- Expected result of `get_surroundings cexSt (some 3)`. -/
def cexRes : Surroundings :=
  { player := { car_idx := .vint 0, name := .vstr "Car 0",
                car_number := .vstr "0", position := .vnone,
                class_position := .vnone },
    cars_ahead := [mkCar 1 60],
    cars_behind := [],
    track_length_m := none }

/-- The rival car of the broadcaster test scenario. -/
def rivalCar : CarRef := { name := "Rival", carNumber := "22", gapMeters := some (6 / 5) }

/-- Surroundings view whose `carsBehind` starts with the rival car. -/
def rivalView : SurroundingsView := { carsAhead := [], carsBehind := [rivalCar] }

/-- A connected tick observing position 6. -/
def tick6 : TickInput :=
  { connected := true, positionInfo := some ⟨6, 2⟩,
    surroundings := fun _ => some rivalView }

/-- A connected tick observing position 5. -/
def tick5 : TickInput :=
  { connected := true, positionInfo := some ⟨5, 2⟩,
    surroundings := fun _ => some rivalView }

/-- A connected tick observing position 4. -/
def tick4 : TickInput :=
  { connected := true, positionInfo := some ⟨4, 2⟩,
    surroundings := fun _ => some rivalView }

/-- A tick on which the DataSource reports not connected. -/
def tickDisc : TickInput :=
  { connected := false, positionInfo := none, surroundings := fun _ => none }

/-- A subscriber whose delivery succeeds. -/
def subOk : Subscriber := { id := 1, deliver := fun _ => .ok () }

/-- A subscriber whose delivery always fails. -/
def subFail : Subscriber := { id := 2, deliver := fun _ => .error "boom" }

/-- A running broadcaster with one healthy subscriber. -/
def bOne : Broadcaster :=
  { register_session initBroadcaster subOk with running := true, loopExited := false }

/-- A running broadcaster with a failing and a healthy subscriber. -/
def bTwo : Broadcaster :=
  { register_session (register_session initBroadcaster subFail) subOk with
    running := true, loopExited := false }

/-- A running broadcaster with baseline position 6 and one subscriber. -/
def b6 : Broadcaster := { bOne with previousPosition := some 6 }

/-- A sample pass event. -/
def ev0 : TelemetryEvent := .playerPass 6 5 none

/-- Helper lemma: an unavailable tick (not connected, or no snapshot) is a
no-op that emits nothing. -/
theorem pollTick_unavailable (b : Broadcaster) (g : TickInput)
    (h : g.connected = false ∨ g.positionInfo = none) :
    pollTick b g = (b, []) := by
  cases hc : g.connected with
  | false => simp [pollTick, hc]
  | true =>
    rcases h with h | h
    · rw [hc] at h; cases h
    · simp [pollTick, hc, h]

/-- Helper lemma: a run of unavailable ticks preserves the whole state and
emits nothing. -/
theorem runTicks_unavailable (b : Broadcaster) (gap : List TickInput)
    (h : ∀ g ∈ gap, g.connected = false ∨ g.positionInfo = none) :
    runTicks b gap = (b, List.replicate gap.length []) := by
  induction gap with
  | nil => rfl
  | cons g gs ih =>
    have hg := h g (List.mem_cons_self g gs)
    have hrest := ih (fun x hx => h x (List.mem_cons_of_mem g hx))
    simp [runTicks, pollTick_unavailable b g hg, hrest, List.replicate_succ]

/-- C1: `ChangeDetector.detect` returns a `PlayerPass` event iff a baseline
is set and the current position is strictly better (numerically lower); the
event carries exactly the baseline as `previousPosition` and the observed
position as `currentPosition`; no event on the first observation and none
when the position stays equal or worsens. -/
theorem detect_pass_characterization (prev : Option Nat) (cur : Nat)
    (surr : Option SurroundingsView) :
    detect none cur surr = none
    ∧ (∀ p, prev = some p → cur < p →
        detect prev cur surr = some (.playerPass p cur (passedCarFrom surr)))
    ∧ (∀ p, prev = some p → p ≤ cur → detect prev cur surr = none)
    ∧ ((detect prev cur surr).isSome ↔ ∃ p, prev = some p ∧ cur < p) := by
  refine ⟨rfl, ?_, ?_, ?_⟩
  · intro p hp hlt
    subst hp
    simp [detect, hlt]
  · intro p hp hle
    subst hp
    simp [detect, Nat.not_lt.mpr hle]
  · cases prev with
    | none => simp [detect]
    | some p =>
      by_cases h : cur < p
      · simp [detect, h]
      · simp [detect, h]

/-- Witness for C1 at a concrete baseline. -/
theorem detect_pass_characterization_witness :
    detect (some 6) 5 none = some (.playerPass 6 5 none)
    ∧ detect (some 6) 6 none = none :=
  ⟨(detect_pass_characterization (some 6) 5 none).2.1 6 rfl (by decide),
   (detect_pass_characterization (some 6) 6 none).2.2.1 6 rfl (by decide)⟩

/-- C2: after every tick that successfully fetched a snapshot the baseline
equals the observed position, whether or not an event fired; hence
re-observing the same position on the next tick emits nothing (no repeat,
no report of an unchanged position). -/
theorem pollTick_updates_baseline (b : Broadcaster) (inp : TickInput)
    (cur : PositionSnapshot) (hc : inp.connected = true)
    (hp : inp.positionInfo = some cur) :
    (pollTick b inp).1.previousPosition = some cur.position
    ∧ (pollTick (pollTick b inp).1 inp).2 = [] := by
  constructor
  · simp [pollTick, hc, hp]
  · simp [pollTick, hc, hp, detect]

/-- Witness for C2 on a concrete tick. -/
theorem pollTick_updates_baseline_witness :
    (pollTick initBroadcaster tick5).1.previousPosition = some 5
    ∧ (pollTick (pollTick initBroadcaster tick5).1 tick5).2 = [] :=
  pollTick_updates_baseline initBroadcaster tick5 ⟨5, 2⟩ rfl rfl

/-- C3: unavailable ticks (disconnected source or missing snapshot) perform
no detection and keep the whole state, baseline included; after any run of
such ticks from a baseline of 6, the first successful tick observing 4
fires exactly one event `previousPosition=6, currentPosition=4`. -/
theorem baseline_survives_gap (b : Broadcaster) (gap : List TickInput)
    (inp : TickInput) (cur : PositionSnapshot)
    (hgap : ∀ g ∈ gap, g.connected = false ∨ g.positionInfo = none)
    (hb : b.previousPosition = some 6)
    (hc : inp.connected = true) (hp : inp.positionInfo = some cur)
    (hcur : cur.position = 4) :
    (runTicks b gap).1 = b
    ∧ (runTicks b gap).2 = List.replicate gap.length []
    ∧ (pollTick (runTicks b gap).1 inp).2
        = broadcastEvent b.subscribers
            (.playerPass 6 4 (passedCarFrom (inp.surroundings 1)))
    ∧ (pollTick (runTicks b gap).1 inp).1.previousPosition = some 4 := by
  have hr := runTicks_unavailable b gap hgap
  refine ⟨by rw [hr], by rw [hr], ?_, ?_⟩
  · rw [hr]
    simp [pollTick, hc, hp, detect, hb, hcur]
  · rw [hr]
    simp [pollTick, hc, hp, hcur]

/-- Witness for C3: three disconnected ticks between a baseline of 6 and a
successful observation of 4. -/
theorem baseline_survives_gap_witness :
    (runTicks b6 [tickDisc, tickDisc, tickDisc]).1 = b6
    ∧ (runTicks b6 [tickDisc, tickDisc, tickDisc]).2 = [[], [], []]
    ∧ (pollTick (runTicks b6 [tickDisc, tickDisc, tickDisc]).1 tick4).2
        = broadcastEvent b6.subscribers (.playerPass 6 4 (some rivalCar))
    ∧ (pollTick (runTicks b6 [tickDisc, tickDisc, tickDisc]).1 tick4).1.previousPosition
        = some 4 :=
  baseline_survives_gap b6 [tickDisc, tickDisc, tickDisc] tick4 ⟨4, 2⟩
    (by intro g hg
        simp only [List.mem_cons, List.not_mem_nil, or_false] at hg
        rcases hg with rfl | rfl | rfl <;> exact Or.inl rfl)
    rfl rfl rfl rfl

/-- C4: delivery fan-out records one outcome per registered subscriber, so
one subscriber's failure neither removes it nor prevents the others from
receiving the event, and a tick never changes the registry or stops the
loop. -/
theorem delivery_failure_isolated (b : Broadcaster) (inp : TickInput)
    (s : Subscriber) (ev : TelemetryEvent) (hs : s ∈ b.subscribers) :
    (s.id, s.deliver ev) ∈ broadcastEvent b.subscribers ev
    ∧ (broadcastEvent b.subscribers ev).length = b.subscribers.length
    ∧ (pollTick b inp).1.subscribers = b.subscribers
    ∧ (pollTick b inp).1.running = b.running := by
  refine ⟨List.mem_map_of_mem _ hs, List.length_map _ _, ?_, ?_⟩
  · cases hc : inp.connected <;> cases hp : inp.positionInfo <;>
      simp [pollTick, hc, hp]
  · cases hc : inp.connected <;> cases hp : inp.positionInfo <;>
      simp [pollTick, hc, hp]

/-- Witness for C4: with a failing and a healthy subscriber registered, the
healthy one still receives the event, the failure is recorded rather than
raised, and the registry survives the tick. -/
theorem delivery_failure_isolated_witness :
    ((subOk.id, subOk.deliver ev0) ∈ broadcastEvent bTwo.subscribers ev0
     ∧ (broadcastEvent bTwo.subscribers ev0).length = bTwo.subscribers.length
     ∧ (pollTick bTwo tick5).1.subscribers = bTwo.subscribers
     ∧ (pollTick bTwo tick5).1.running = bTwo.running)
    ∧ broadcastEvent bTwo.subscribers ev0 = [(2, .error "boom"), (1, .ok ())] :=
  ⟨delivery_failure_isolated bTwo tick5 subOk ev0
      (List.Mem.tail _ (List.Mem.head _)), rfl⟩

/-- C5: whenever the detector fires, the event's `passedCar` is obtained by
querying the surroundings with lookback count 1 and taking the head of
`carsBehind` (unset when that list is empty). -/
theorem passed_car_derivation (b : Broadcaster) (inp : TickInput)
    (cur : PositionSnapshot) (p : Nat)
    (hc : inp.connected = true) (hp : inp.positionInfo = some cur)
    (hb : b.previousPosition = some p) (hlt : cur.position < p) :
    (pollTick b inp).2
      = broadcastEvent b.subscribers
          (.playerPass p cur.position (passedCarFrom (inp.surroundings 1)))
    ∧ passedCarFrom (inp.surroundings 1)
        = (inp.surroundings 1).bind (fun sv => sv.carsBehind.head?) := by
  constructor
  · simp [pollTick, hc, hp, detect, hb, hlt]
  · rfl

/-- Witness for C5: the `[6, 6, 5]` scenario — after two ticks at 6, the
tick at 5 fires a single event whose `passedCar` is the rival named
"Rival". -/
theorem passed_car_derivation_witness :
    (runTicks bOne [tick6, tick6]).2 = [[], []]
    ∧ (pollTick (runTicks bOne [tick6, tick6]).1 tick5).2
        = broadcastEvent bOne.subscribers (.playerPass 6 5 (some rivalCar))
    ∧ rivalCar.name = "Rival" := by
  refine ⟨rfl, ?_, rfl⟩
  have h := passed_car_derivation (runTicks bOne [tick6, tick6]).1 tick5
    ⟨5, 2⟩ 6 rfl rfl rfl (by decide)
  exact h.1

/-- C6: `stop()` is idempotent — a no-op when not running, stopping twice
equals stopping once with no duplicated teardown, and after any stop the
running flag is false and (from any state reachable by the lifecycle, where
`running = false` implies the loop has exited) the loop has fully exited. -/
theorem stop_idempotent (b : Broadcaster) :
    (b.running = false → stop b = b)
    ∧ stop (stop b) = stop b
    ∧ (stop b).running = false
    ∧ (stop (stop b)).teardownCount = (stop b).teardownCount
    ∧ (b.running = true ∨ b.loopExited = true → (stop b).loopExited = true) := by
  refine ⟨?_, ?_, ?_, ?_, ?_⟩ <;> cases hb : b.running <;> simp [stop, hb]

/-- Witness for C6 on the initial (not running) broadcaster. -/
theorem stop_idempotent_witness :
    stop initBroadcaster = initBroadcaster
    ∧ (stop initBroadcaster).loopExited = true :=
  ⟨(stop_idempotent initBroadcaster).1 rfl,
   (stop_idempotent initBroadcaster).2.2.2.2 (Or.inr rfl)⟩

/-- C7: the collector read operations return None instead of raising: when
not connected both return None without touching the data, and any exception
the try-block body raises is caught and mapped to None. -/
theorem collector_never_raises (st : IRState) (count : Option Int) :
    (is_connected st = false →
      get_position_info st = none ∧ get_surroundings st count = none)
    ∧ (∀ e, get_position_info_body st = .error e → get_position_info st = none)
    ∧ (∀ e, get_surroundings_body st (effectiveCount count) = .error e →
        get_surroundings st count = none) := by
  refine ⟨?_, ?_, ?_⟩
  · intro h
    constructor <;> simp [get_position_info, get_surroundings, h]
  · intro e he
    cases hc : is_connected st <;> simp [get_position_info, hc, he]
  · intro e he
    cases hc : is_connected st <;> simp [get_surroundings, hc, he]

/-- Witness for C7: a never-connected collector and a connected collector
whose freeze raises both return None from both read operations. -/
theorem collector_never_raises_witness :
    (get_position_info exDisc = none ∧ get_surroundings exDisc (some 3) = none)
    ∧ get_position_info exFail = none
    ∧ get_surroundings exFail (some 3) = none :=
  ⟨(collector_never_raises exDisc (some 3)).1 rfl,
   (collector_never_raises exFail (some 3)).2.1 .typeError (by with_unfolding_all rfl),
   (collector_never_raises exFail (some 3)).2.2 .typeError (by with_unfolding_all rfl)⟩

/-- Helper lemma: inverting a successful `get_surroundings` call exposes
the reads, the entry collection, and the shape of the two result lists. -/
theorem get_surroundings_inv (st : IRState) (count : Option Int)
    (r : Surroundings) (h : get_surroundings st count = some r) :
    ∃ player_idx player_dist car_speeds car_positions car_class_positions
      car_surfaces track_length_m dists entries,
      _get_var st "PlayerCarIdx" = .ok player_idx
      ∧ _get_var st "LapDistPct" = .ok player_dist
      ∧ distsListOf st = .ok dists
      ∧ collectEntries st player_idx player_dist car_speeds car_positions
          car_class_positions car_surfaces track_length_m dists 0 = .ok entries
      ∧ r.cars_ahead = ((entries.filter
          (fun car => decide (0 < car.relative_lap_dist_pct))).insertionSort
            aheadLe).take (effectiveCount count).toNat
      ∧ r.cars_behind = ((entries.filter
          (fun car => decide (car.relative_lap_dist_pct < 0))).insertionSort
            behindLe).take (effectiveCount count).toNat := by
  unfold get_surroundings at h
  cases hc : is_connected st with
  | false =>
    rw [hc] at h
    simp at h
  | true =>
    rw [hc] at h
    simp only [if_true] at h
    cases hbody : get_surroundings_body st (effectiveCount count) with
    | error e =>
      rw [hbody] at h
      simp at h
    | ok r0 =>
      rw [hbody] at h
      simp only at h
      subst h
      unfold get_surroundings_body at hbody
      cases hf : st.freeze with
      | error e =>
        rw [hf] at hbody
        exact Except.noConfusion hbody
      | ok u =>
        rw [hf] at hbody
        dsimp only at hbody
        cases hpi : _get_var st "PlayerCarIdx" with
        | error e =>
          rw [hpi] at hbody
          exact Except.noConfusion hbody
        | ok player_idx =>
          rw [hpi] at hbody
          dsimp only at hbody
          cases hpd : _get_var st "LapDistPct" with
          | error e =>
            rw [hpd] at hbody
            exact Except.noConfusion hbody
          | ok player_dist =>
            rw [hpd] at hbody
            dsimp only at hbody
            cases hn : (isNone player_idx || isNone player_dist) with
            | true =>
              rw [hn] at hbody
              simp at hbody
            | false =>
              rw [hn] at hbody
              simp only [Bool.false_eq_true, if_false] at hbody
              cases hd : _get_var st "CarIdxLapDistPct" with
              | error e =>
                rw [hd] at hbody
                exact Except.noConfusion hbody
              | ok vdists =>
                rw [hd] at hbody
                dsimp only at hbody
                cases hs : _get_var st "CarIdxSpeed" with
                | error e =>
                  rw [hs] at hbody
                  exact Except.noConfusion hbody
                | ok vspeeds =>
                  rw [hs] at hbody
                  dsimp only at hbody
                  cases hp : _get_var st "CarIdxPosition" with
                  | error e =>
                    rw [hp] at hbody
                    exact Except.noConfusion hbody
                  | ok vpos =>
                    rw [hp] at hbody
                    dsimp only at hbody
                    cases hcp : _get_var st "CarIdxClassPosition" with
                    | error e =>
                      rw [hcp] at hbody
                      exact Except.noConfusion hbody
                    | ok vclass =>
                      rw [hcp] at hbody
                      dsimp only at hbody
                      cases hsu : _get_var st "CarIdxTrackSurface" with
                      | error e =>
                        rw [hsu] at hbody
                        exact Except.noConfusion hbody
                      | ok vsurf =>
                        rw [hsu] at hbody
                        dsimp only at hbody
                        cases htl : _get_track_length_meters st with
                        | error e =>
                          rw [htl] at hbody
                          exact Except.noConfusion hbody
                        | ok track_length_m =>
                          rw [htl] at hbody
                          dsimp only at hbody
                          cases hit : asIter (pyOr vdists (.vlist [])) with
                          | error e =>
                            rw [hit] at hbody
                            exact Except.noConfusion hbody
                          | ok dists =>
                            rw [hit] at hbody
                            dsimp only at hbody
                            cases hcoll : collectEntries st player_idx
                                player_dist (pyOr vspeeds (.vlist []))
                                (pyOr vpos (.vlist []))
                                (pyOr vclass (.vlist []))
                                (pyOr vsurf (.vlist []))
                                track_length_m dists 0 with
                            | error e =>
                              rw [hcoll] at hbody
                              exact Except.noConfusion hbody
                            | ok entries =>
                              rw [hcoll] at hbody
                              dsimp only at hbody
                              simp only [Except.ok.injEq, Option.some.injEq]
                                at hbody
                              subst hbody
                              refine ⟨player_idx, player_dist,
                                pyOr vspeeds (.vlist []),
                                pyOr vpos (.vlist []),
                                pyOr vclass (.vlist []),
                                pyOr vsurf (.vlist []),
                                track_length_m, dists, entries,
                                rfl, rfl, ?_, hcoll, rfl, rfl⟩
                              simp [distsListOf, hd, hit]

/-- C8: the effective count of `get_surroundings` is clamped into [1, 10],
a missing or zero count defaults to 3, and each result list holds at most
the effective count of entries, hence at most 10. -/
theorem surroundings_count_clamped (st : IRState) (count : Option Int)
    (r : Surroundings) (h : get_surroundings st count = some r) :
    1 ≤ effectiveCount count ∧ effectiveCount count ≤ 10
    ∧ effectiveCount none = 3 ∧ effectiveCount (some 0) = 3
    ∧ r.cars_ahead.length ≤ (effectiveCount count).toNat
    ∧ r.cars_behind.length ≤ (effectiveCount count).toNat
    ∧ r.cars_ahead.length ≤ 10 ∧ r.cars_behind.length ≤ 10 := by
  obtain ⟨pi, pd, cs, cp, ccp, csu, tl, dists, entries, hpi, hpd, hdl, hcoll,
    ha, hb⟩ := get_surroundings_inv st count r h
  have h10 : effectiveCount count ≤ 10 := by
    unfold effectiveCount
    exact max_le (by norm_num) (min_le_left _ _)
  have hlena : r.cars_ahead.length ≤ (effectiveCount count).toNat := by
    rw [ha]
    exact List.length_take_le _ _
  have hlenb : r.cars_behind.length ≤ (effectiveCount count).toNat := by
    rw [hb]
    exact List.length_take_le _ _
  refine ⟨le_max_left _ _, h10, by decide, by decide, hlena, hlenb, ?_, ?_⟩
  · exact le_trans hlena (by omega)
  · exact le_trans hlenb (by omega)

/-- Witness for C8 at the sample session. -/
theorem surroundings_count_clamped_witness :
    1 ≤ effectiveCount (some 3) ∧ effectiveCount (some 3) ≤ 10
    ∧ effectiveCount none = 3 ∧ effectiveCount (some 0) = 3
    ∧ exRes.cars_ahead.length ≤ (effectiveCount (some 3)).toNat
    ∧ exRes.cars_behind.length ≤ (effectiveCount (some 3)).toNat
    ∧ exRes.cars_ahead.length ≤ 10 ∧ exRes.cars_behind.length ≤ 10 :=
  surroundings_count_clamped exGood (some 3) exRes (by with_unfolding_all rfl)

/-- C9: in every successful `get_surroundings` result, `cars_ahead` holds
only strictly positive relative distances sorted ascending, and
`cars_behind` only strictly negative ones sorted by ascending absolute
value. -/
theorem surroundings_sorted_and_signed (st : IRState) (count : Option Int)
    (r : Surroundings) (h : get_surroundings st count = some r) :
    (∀ car ∈ r.cars_ahead, 0 < car.relative_lap_dist_pct)
    ∧ List.Sorted aheadLe r.cars_ahead
    ∧ (∀ car ∈ r.cars_behind, car.relative_lap_dist_pct < 0)
    ∧ List.Sorted behindLe r.cars_behind := by
  obtain ⟨pi, pd, cs, cp, ccp, csu, tl, dists, entries, hpi, hpd, hdl, hcoll,
    ha, hb⟩ := get_surroundings_inv st count r h
  refine ⟨?_, ?_, ?_, ?_⟩
  · intro car hc
    rw [ha] at hc
    have h2 := (List.mem_insertionSort aheadLe).mp (List.mem_of_mem_take hc)
    exact of_decide_eq_true (List.mem_filter.mp h2).2
  · rw [ha]
    exact List.Pairwise.sublist (List.take_sublist _ _)
      (List.sorted_insertionSort aheadLe _)
  · intro car hc
    rw [hb] at hc
    have h2 := (List.mem_insertionSort behindLe).mp (List.mem_of_mem_take hc)
    exact of_decide_eq_true (List.mem_filter.mp h2).2
  · rw [hb]
    exact List.Pairwise.sublist (List.take_sublist _ _)
      (List.sorted_insertionSort behindLe _)

/-- Witness for C9 at the sample session, whose ahead list is [5, 10] and
behind list is [-10]. -/
theorem surroundings_sorted_and_signed_witness :
    (∀ car ∈ exRes.cars_ahead, 0 < car.relative_lap_dist_pct)
    ∧ List.Sorted aheadLe exRes.cars_ahead
    ∧ (∀ car ∈ exRes.cars_behind, car.relative_lap_dist_pct < 0)
    ∧ List.Sorted behindLe exRes.cars_behind :=
  surroundings_sorted_and_signed exGood (some 3) exRes (by with_unfolding_all rfl)

/-- Helper lemma: half-even rounding never exceeds an integer upper bound
of its argument. -/
theorem rhe_le (q : Rat) (n : Int) (h : q ≤ (n : Rat)) : rhe q ≤ n := by
  simp only [rhe]
  have hfl : (⌊q⌋ : Rat) ≤ q := Int.floor_le q
  have hfn : ⌊q⌋ ≤ n := (Int.floor_le_floor h).trans_eq (Int.floor_intCast n)
  split_ifs with h1 h2 h3
  · exact hfn
  · have hlt : (⌊q⌋ : Rat) < (n : Rat) := by linarith
    exact Int.add_one_le_iff.mpr (by exact_mod_cast hlt)
  · exact hfn
  · have heq : q - (⌊q⌋ : Rat) = 1 / 2 := le_antisymm (not_lt.mp h2) (not_lt.mp h1)
    have hlt : (⌊q⌋ : Rat) < (n : Rat) := by linarith
    exact Int.add_one_le_iff.mpr (by exact_mod_cast hlt)

/-- Helper lemma: half-even rounding never falls below an integer lower
bound of its argument. -/
theorem rhe_ge (q : Rat) (n : Int) (h : (n : Rat) ≤ q) : n ≤ rhe q := by
  simp only [rhe]
  have hfn : n ≤ ⌊q⌋ := Int.le_floor.mpr h
  split_ifs with h1 h2 h3
  · exact hfn
  · omega
  · exact hfn
  · omega

/-- Helper lemma: Python rounding respects an integer upper bound. -/
theorem pyRound_le (q : Rat) (n : Nat) (B : Int) (h : q ≤ (B : Rat)) :
    pyRound q n ≤ (B : Rat) := by
  unfold pyRound
  have hpow : (0 : Rat) < (10 : Rat) ^ n := by positivity
  rw [div_le_iff₀ hpow]
  have h2 : q * (10 : Rat) ^ n ≤ ((B * (10 : Int) ^ n : Int) : Rat) := by
    push_cast
    exact mul_le_mul_of_nonneg_right h (le_of_lt hpow)
  have h3 := rhe_le _ _ h2
  have h4 : ((rhe (q * 10 ^ n) : Int) : Rat) ≤ ((B * (10 : Int) ^ n : Int) : Rat) := by
    exact_mod_cast h3
  calc ((rhe (q * 10 ^ n) : Int) : Rat)
      ≤ ((B * (10 : Int) ^ n : Int) : Rat) := h4
    _ = (B : Rat) * 10 ^ n := by push_cast; ring

/-- Helper lemma: Python rounding respects an integer lower bound. -/
theorem pyRound_ge (q : Rat) (n : Nat) (B : Int) (h : (B : Rat) ≤ q) :
    (B : Rat) ≤ pyRound q n := by
  unfold pyRound
  have hpow : (0 : Rat) < (10 : Rat) ^ n := by positivity
  rw [le_div_iff₀ hpow]
  have h2 : ((B * (10 : Int) ^ n : Int) : Rat) ≤ q * (10 : Rat) ^ n := by
    push_cast
    exact mul_le_mul_of_nonneg_right h (le_of_lt hpow)
  have h3 := rhe_ge _ _ h2
  have h4 : ((B * (10 : Int) ^ n : Int) : Rat) ≤ ((rhe (q * 10 ^ n) : Int) : Rat) := by
    exact_mod_cast h3
  calc (B : Rat) * 10 ^ n
      = ((B * (10 : Int) ^ n : Int) : Rat) := by push_cast; ring
    _ ≤ ((rhe (q * 10 ^ n) : Int) : Rat) := h4

/-- Helper lemma: on differences within one lap, the start/finish-line
normalization lands in [-1/2, 1/2]. -/
theorem normalizeRel_mem (x : Rat) (h1 : -1 ≤ x) (h2 : x ≤ 1) :
    -(1 / 2) ≤ normalizeRel x ∧ normalizeRel x ≤ 1 / 2 := by
  unfold normalizeRel
  split_ifs with ha hb <;> constructor <;> linarith

/-- Helper lemma: inverting one successful, entry-producing loop iteration
exposes the skip-guards it passed and the shape of the entry. -/
theorem entryStep_some (st : IRState) (pidx pdist cs cp ccp csu : PyVal)
    (tl : Option Rat) (idx : Nat) (d : PyVal) (e : SurroundCar)
    (h : entryStep st pidx pdist cs cp ccp csu tl idx d = .ok (some e)) :
    pyEqNat pidx idx = false
    ∧ e.car_idx = idx
    ∧ isNone d = false
    ∧ isNumber d = true
    ∧ pyLtZero d = .ok false
    ∧ ∃ q qp, pyFloat d = .ok q ∧ pyFloat pdist = .ok qp
        ∧ normalizeRel (q - qp) ≠ 0
        ∧ e.relative_lap_dist_pct = pyRound (normalizeRel (q - qp) * 100) 4 := by
  unfold entryStep at h
  cases hskip : pyEqNat pidx idx with
  | true =>
    rw [hskip] at h
    simp at h
  | false =>
    rw [hskip] at h
    simp only [Bool.false_eq_true, if_false] at h
    cases hnone : isNone d with
    | true =>
      rw [hnone] at h
      simp at h
    | false =>
      rw [hnone] at h
      simp only [Bool.false_eq_true, if_false] at h
      cases hlt : pyLtZero d with
      | error e2 =>
        rw [hlt] at h
        exact Except.noConfusion h
      | ok b =>
        cases b with
        | true =>
          rw [hlt] at h
          simp at h
        | false =>
          rw [hlt] at h
          dsimp only at h
          cases hnum : isNumber d with
          | false =>
            rw [hnum] at h
            simp at h
          | true =>
            rw [hnum] at h
            simp only [Bool.not_true, Bool.false_eq_true, if_false] at h
            cases hfd : pyFloat d with
            | error e2 =>
              rw [hfd] at h
              exact Except.noConfusion h
            | ok q =>
              rw [hfd] at h
              dsimp only at h
              cases hfp : pyFloat pdist with
              | error e2 =>
                rw [hfp] at h
                exact Except.noConfusion h
              | ok qp =>
                rw [hfp] at h
                dsimp only at h
                split_ifs at h with hrel
                · exact Option.noConfusion (Except.ok.inj h)
                · have he := (Except.ok.inj h)
                  have he2 := Option.some.inj he
                  subst he2
                  exact ⟨rfl, rfl, rfl, rfl, rfl, q, qp, rfl, rfl, hrel, rfl⟩

/-- Helper lemma: every entry the loop collects comes from a successful,
entry-producing `entryStep` at that entry's own car index, on the list
element at the corresponding position. -/
theorem collectEntries_mem (st : IRState) (pidx pdist cs cp ccp csu : PyVal)
    (tl : Option Rat) :
    ∀ (dists : List PyVal) (idx0 : Nat) (out : List SurroundCar),
      collectEntries st pidx pdist cs cp ccp csu tl dists idx0 = .ok out →
      ∀ e ∈ out, idx0 ≤ e.car_idx
        ∧ ∃ d, dists.get? (e.car_idx - idx0) = some d
            ∧ entryStep st pidx pdist cs cp ccp csu tl e.car_idx d
                = .ok (some e) := by
  intro dists
  induction dists with
  | nil =>
    intro idx0 out h e he
    simp only [collectEntries, Except.ok.injEq] at h
    subst h
    cases he
  | cons d rest ih =>
    intro idx0 out h e he
    simp only [collectEntries] at h
    cases hstep : entryStep st pidx pdist cs cp ccp csu tl idx0 d with
    | error e2 =>
      rw [hstep] at h
      exact Except.noConfusion h
    | ok o =>
      rw [hstep] at h
      cases o with
      | none =>
        dsimp only at h
        obtain ⟨h1, d2, hd2, hstep2⟩ := ih (idx0 + 1) out h e he
        refine ⟨by omega, d2, ?_, hstep2⟩
        have hix : e.car_idx - idx0 = (e.car_idx - (idx0 + 1)) + 1 := by omega
        rw [hix]
        simpa using hd2
      | some entry =>
        dsimp only at h
        cases hrest : collectEntries st pidx pdist cs cp ccp csu tl rest
            (idx0 + 1) with
        | error e2 =>
          rw [hrest] at h
          exact Except.noConfusion h
        | ok es =>
          rw [hrest] at h
          dsimp only at h
          simp only [Except.ok.injEq] at h
          subst h
          cases he with
          | head =>
            have hidx : e.car_idx = idx0 := (entryStep_some st pidx pdist cs
              cp ccp csu tl idx0 d e hstep).2.1
            refine ⟨by omega, d, ?_, ?_⟩
            · rw [hidx]
              simp
            · rw [hidx]
              exact hstep
          | tail _ hmem =>
            obtain ⟨h1, d2, hd2, hstep2⟩ := ih (idx0 + 1) es hrest e hmem
            refine ⟨by omega, d2, ?_, hstep2⟩
            have hix : e.car_idx - idx0 = (e.car_idx - (idx0 + 1)) + 1 := by
              omega
            rw [hix]
            simpa using hd2

/-- C10 counterexample: with the player at lap distance 0 and an opponent
at 1.6 laps (a value the code accepts, as it only rejects negative
distances), the single normalization step leaves 0.6 laps and the reported
relative_lap_dist_pct is 60, outside [-50, 50]. -/
theorem surroundings_normalization_cex :
    get_surroundings cexSt (some 3) = some cexRes
    ∧ mkCar 1 60 ∈ cexRes.cars_ahead
    ∧ ¬((mkCar 1 60).relative_lap_dist_pct ≤ 50) := by
  refine ⟨by with_unfolding_all rfl, List.Mem.head _, ?_⟩
  simp only [mkCar]
  norm_num

/-- C10 (amended): the start/finish normalization subtracts 1.0 above a
+0.5-lap difference and adds 1.0 below -0.5; provided every lap-distance
value read (each opponent's and the player's) lies within one lap [0, 1],
every reported relative_lap_dist_pct lies within [-50, 50]; and
unconditionally the player car, cars with missing, non-numeric, or negative
lap distance, and cars exactly level with the player never appear in the
result. -/
theorem surroundings_normalized_bounds (st : IRState) (count : Option Int)
    (r : Surroundings) (h : get_surroundings st count = some r) :
    ((∀ l, distsListOf st = .ok l → ∀ d ∈ l, distInUnit d = true) →
      (∀ v, _get_var st "LapDistPct" = .ok v → distInUnit v = true) →
      ∀ car ∈ r.cars_ahead ++ r.cars_behind,
        -50 ≤ car.relative_lap_dist_pct ∧ car.relative_lap_dist_pct ≤ 50)
    ∧ (∀ car ∈ r.cars_ahead ++ r.cars_behind, car.relative_lap_dist_pct ≠ 0)
    ∧ (∀ pi2, _get_var st "PlayerCarIdx" = .ok pi2 →
        ∀ car ∈ r.cars_ahead ++ r.cars_behind,
          pyEqNat pi2 car.car_idx = false)
    ∧ (∀ l, distsListOf st = .ok l →
        ∀ car ∈ r.cars_ahead ++ r.cars_behind,
          ∃ d, l.get? car.car_idx = some d ∧ isNone d = false
            ∧ isNumber d = true ∧ pyLtZero d = .ok false) := by
  obtain ⟨pi, pd, cs, cp, ccp, csu, tl, dists, entries, hpi, hpd, hdl, hcoll,
    ha, hb⟩ := get_surroundings_inv st count r h
  have hmem : ∀ car ∈ r.cars_ahead ++ r.cars_behind, car ∈ entries := by
    intro car hc
    rcases List.mem_append.mp hc with hca | hcb
    · rw [ha] at hca
      exact List.mem_of_mem_filter
        ((List.mem_insertionSort aheadLe).mp (List.mem_of_mem_take hca))
    · rw [hb] at hcb
      exact List.mem_of_mem_filter
        ((List.mem_insertionSort behindLe).mp (List.mem_of_mem_take hcb))
  have hfacts : ∀ car ∈ entries,
      ∃ d, dists.get? car.car_idx = some d
        ∧ entryStep st pi pd cs cp ccp csu tl car.car_idx d
            = .ok (some car) := by
    intro car hc
    obtain ⟨h0, d, hget, hstep⟩ := collectEntries_mem st pi pd cs cp ccp csu
      tl dists 0 entries hcoll car hc
    exact ⟨d, by simpa using hget, hstep⟩
  refine ⟨?_, ?_, ?_, ?_⟩
  · intro hd hp car hc
    obtain ⟨d, hget, hstep⟩ := hfacts car (hmem car hc)
    obtain ⟨hskip, hcar, hnone, hnum, hltz, q, qp, hfd, hfp, hne, hrel⟩ :=
      entryStep_some _ _ _ _ _ _ _ _ _ _ _ hstep
    have hdu := hd dists hdl d (List.get?_mem hget)
    unfold distInUnit at hdu
    rw [hfd] at hdu
    have hq : (0 : Rat) ≤ q ∧ q ≤ 1 := of_decide_eq_true hdu
    have hpu := hp pd hpd
    unfold distInUnit at hpu
    rw [hfp] at hpu
    have hqp : (0 : Rat) ≤ qp ∧ qp ≤ 1 := of_decide_eq_true hpu
    have hnb := normalizeRel_mem (q - qp)
      (by linarith [hq.1, hq.2, hqp.1, hqp.2])
      (by linarith [hq.1, hq.2, hqp.1, hqp.2])
    rw [hrel]
    constructor
    · have hg := pyRound_ge (normalizeRel (q - qp) * 100) 4 (-50)
        (by push_cast; linarith [hnb.1])
      exact_mod_cast hg
    · have hl := pyRound_le (normalizeRel (q - qp) * 100) 4 50
        (by push_cast; linarith [hnb.2])
      exact_mod_cast hl
  · intro car hc
    rcases List.mem_append.mp hc with hca | hcb
    · rw [ha] at hca
      have h2 := (List.mem_insertionSort aheadLe).mp
        (List.mem_of_mem_take hca)
      exact ne_of_gt (of_decide_eq_true (List.mem_filter.mp h2).2)
    · rw [hb] at hcb
      have h2 := (List.mem_insertionSort behindLe).mp
        (List.mem_of_mem_take hcb)
      exact ne_of_lt (of_decide_eq_true (List.mem_filter.mp h2).2)
  · intro pi2 hpi2 car hc
    have hpe : pi2 = pi := Except.ok.inj (hpi2.symm.trans hpi)
    subst hpe
    obtain ⟨d, hget, hstep⟩ := hfacts car (hmem car hc)
    exact (entryStep_some _ _ _ _ _ _ _ _ _ _ _ hstep).1
  · intro l hl car hc
    have hle : l = dists := Except.ok.inj (hl.symm.trans hdl)
    subst hle
    obtain ⟨d, hget, hstep⟩ := hfacts car (hmem car hc)
    obtain ⟨hskip, hcar, hnone, hnum, hltz, _⟩ :=
      entryStep_some _ _ _ _ _ _ _ _ _ _ _ hstep
    exact ⟨d, hget, hnone, hnum, hltz⟩

/-- Witness for the amended C10 at the sample session, whose lap distances
all lie within one lap. -/
theorem surroundings_normalized_bounds_witness :
    (∀ car ∈ exRes.cars_ahead ++ exRes.cars_behind,
        -50 ≤ car.relative_lap_dist_pct ∧ car.relative_lap_dist_pct ≤ 50)
    ∧ (∀ car ∈ exRes.cars_ahead ++ exRes.cars_behind,
        car.relative_lap_dist_pct ≠ 0)
    ∧ (∀ pi2, _get_var exGood "PlayerCarIdx" = .ok pi2 →
        ∀ car ∈ exRes.cars_ahead ++ exRes.cars_behind,
          pyEqNat pi2 car.car_idx = false)
    ∧ (∀ l, distsListOf exGood = .ok l →
        ∀ car ∈ exRes.cars_ahead ++ exRes.cars_behind,
          ∃ d, l.get? car.car_idx = some d ∧ isNone d = false
            ∧ isNumber d = true ∧ pyLtZero d = .ok false) := by
  have T := surroundings_normalized_bounds exGood (some 3) exRes
    (by with_unfolding_all rfl)
  refine ⟨T.1 ?_ ?_, T.2.1, T.2.2.1, T.2.2.2⟩
  · intro l hl
    have hco : distsListOf exGood
        = .ok [.vfloat (1 / 2), .vfloat (3 / 5), .vfloat (2 / 5),
               .vfloat (11 / 20)] := by with_unfolding_all rfl
    rw [hco] at hl
    have hle := Except.ok.inj hl
    subst hle
    intro d hdm
    simp only [List.mem_cons, List.not_mem_nil, or_false] at hdm
    rcases hdm with rfl | rfl | rfl | rfl <;> with_unfolding_all decide
  · intro v hv
    have hco : _get_var exGood "LapDistPct" = .ok (.vfloat (1 / 2)) := by
      with_unfolding_all rfl
    rw [hco] at hv
    have hve := Except.ok.inj hv
    subst hve
    with_unfolding_all decide
